import Mathlib

/-!
Verification development for the Neon Arena combat core.

This file gives a shallow embedding, in Lean 4, of the combat-relevant parts
of the arena-shooter source: the per-archetype damage rules of enemies.py,
the wave and spawn logic of enemy_manager.py, the player damage rules of
player.py, and the combat-resolution, trial and ultimate handlers of game.py.

Modelling conventions, used throughout:
- Python floats are modelled as rationals.  Every arithmetic operation of the
  source is linear or polynomial, except math.sqrt, math.sin/cos/atan2 and the
  random draws.
- Distance comparisons of the form sqrt(dx*dx + dy*dy) < c are modelled as
  dx^2 + dy^2 < c^2, which is exactly equivalent for c >= 0 since the square
  root is monotone on nonnegative reals; each such site is noted.
- Normalised direction vectors (dx/dist, dy/dist) and trigonometric values
  are supplied as explicit function parameters where a claim does not depend
  on their value; every theorem holds for every choice of these parameters,
  in particular for the real ones.
- Random draws (random.random, random.uniform, random.randint) are supplied
  as explicit inputs, so each update function is a deterministic function of
  the state and the drawn values, exactly as the source is.
- Angles are measured in half-turns, that is in units of pi radians: an angle
  of x in this file stands for x*pi radians in the source.  The wrap
  operation (a + pi) mod 2pi - pi of the source becomes (a + 1) mod 2 - 1,
  and the 120-degree shield arc becomes 2/3.  This change of unit is linear
  and exact.
- Python's int() truncates toward zero; it is modelled by pyInt below.
  Python's // on nonnegative integers is floor division.
-/

namespace NeonArena

/- ── Constants from settings.py ────────────────────────────────────────── -/

def ARENA_WIDTH : ℚ := 4000
def ARENA_HEIGHT : ℚ := 4000
def SPAWN_MARGIN : ℚ := 100
def SPAWN_MIN_DIST : ℚ := 500
def BOSS_WAVE_INTERVAL : ℕ := 5
def CHASER_BURST_SPEED_MULT : ℚ := 3
def CHASER_BURST_DURATION : ℚ := 2/5
def TANK_SHIELD_REDUCTION : ℚ := 7/10
def TANK_SHIELD_COOLDOWN : ℚ := 8
def TANK_SHIELD_DURATION : ℚ := 3
def BOMBER_PRIME_RANGE : ℚ := 60
def BOMBER_PRIME_DURATION : ℚ := 1
def BOMBER_EXPLOSION_RADIUS : ℚ := 120
/-- SHIELD_GUARD_ARC is math.radians(120) in the source, i.e. (2/3)*pi;
in the half-turn angle unit of this file that is 2/3. -/
def SHIELD_GUARD_ARC : ℚ := 2/3
def COMBO_WINDOW : ℚ := 2
def SCORE_MULTIPLIER : ℚ := 1
def COMBO_TIER1_THRESHOLD : ℤ := 5
def COMBO_TIER2_THRESHOLD : ℤ := 10
def ULT_COOLDOWN : ℚ := 45
def ULT_CHARGE_PER_KILL : ℚ := 5
def ULT_PULSE_RADIUS : ℚ := 350
def ULT_PULSE_DAMAGE : ℚ := 60
def ULT_PUSHBACK_FORCE : ℚ := 600
def ULT_SLOW_DURATION : ℚ := 3
def ULT_SLOW_FACTOR : ℚ := 2/5
def ULT_LASER_COUNT : ℕ := 6
def ULT_LASER_DAMAGE : ℚ := 40
def ULT_LASER_SPEED : ℚ := 1400
def ULT_TOXIC_POOL_COUNT : ℕ := 8
def ULT_TOXIC_POOL_DAMAGE : ℚ := 8
def ULT_TOXIC_POOL_LIFETIME : ℚ := 4
def ULT_TOXIC_POOL_RADIUS : ℚ := 30
def ULT_TANK_PUSHBACK_MULT : ℚ := 5/2
def SHOCKWAVE_RADIUS : ℚ := 150
def SHOCKWAVE_PUSHBACK : ℚ := 400
def TRIAL_KILL_TARGET : ℤ := 10
def BASE_XP_REQUIRED : ℚ := 100
def XP_SCALE_FACTOR : ℚ := 3/2

/-- Python's int() conversion: truncation toward zero. -/
def pyInt (q : ℚ) : ℤ := if 0 ≤ q then ⌊q⌋ else ⌈q⌉

/- ── Angles (ShieldGuard, enemies.py 1000-1018) ────────────────────────── -/

/-- The wrap-to-(-pi, pi] step of ShieldGuard.is_bullet_shielded, in
half-turn units: Python computes (b - f + pi) % (2*pi) - pi, whose result
lies in the interval from -pi (inclusive) to pi (exclusive); here that is
(b - f + 1) mod 2 - 1 with mod the nonnegative rational remainder. -/
def angleDiff (b f : ℚ) : ℚ := ((b - f + 1) - 2 * ⌊(b - f + 1) / 2⌋) - 1

/-- ShieldGuard.is_bullet_shielded (enemies.py 1000-1009): the bullet is
blocked when the wrapped angular difference from the facing angle is at most
half the shield arc (inclusive comparison, as in the source). -/
def isBulletShielded (facing bulletAngle : ℚ) : Bool :=
  |angleDiff bulletAngle facing| ≤ SHIELD_GUARD_ARC / 2

/- ── Enemy damage model (enemies.py) ───────────────────────────────────── -/

/-- Archetype tag carrying exactly the sub-state that take_damage consults:
a Tank knows whether its shield phase is active, a ShieldGuard knows its
facing angle; every other archetype uses the base rule unchanged. -/
inductive EKind where
  | plain : EKind
  | tank : Bool → EKind
  | guard : ℚ → EKind
deriving DecidableEq, Repr

/-- Augment / boss-archetype tag ('sniper', 'slime', 'tank' in the source). -/
inductive AugKind where
  | sniper : AugKind
  | slime : AugKind
  | tank : AugKind
deriving DecidableEq, Repr

/-- The fields of an enemy that the combat resolver reads and writes. -/
structure EnemyU where
  posX : ℚ
  posY : ℚ
  radius : ℚ
  hp : ℚ
  damage : ℚ
  xpValue : ℚ
  flashTimer : ℚ
  slowTimer : ℚ
  slowFactor : ℚ
  isBoss : Bool
  bossAug : AugKind
  kind : EKind
deriving DecidableEq, Repr

/-- Enemy.take_damage (enemies.py 70-81): subtract the amount, set the flash
timer to 0.1, clamp hp to 0 and report a kill when it would drop to or below
zero.  Particle emission is an external sink and is not modelled. -/
def enemyApplyBase (e : EnemyU) (amount : ℚ) : EnemyU × Bool :=
  let hp := e.hp - amount
  if hp ≤ 0 then ({ e with hp := 0, flashTimer := 1/10 }, true)
  else ({ e with hp := hp, flashTimer := 1/10 }, false)

/-- Archetype damage dispatch:
Tank.take_damage (enemies.py 352-359) first replaces the amount by
int(amount * (1.0 - TANK_SHIELD_REDUCTION)) while the shield phase is
active, then applies the base rule;
ShieldGuard.take_damage (enemies.py 1011-1018) rejects the hit entirely
when an origin angle is supplied and falls inside the shield arc;
every other archetype applies the base rule. -/
def enemyTakeDamage (e : EnemyU) (amount : ℚ) (fromAngle : Option ℚ) :
    EnemyU × Bool :=
  match e.kind with
  | EKind.plain => enemyApplyBase e amount
  | EKind.tank shielded =>
      enemyApplyBase e
        (if shielded then ((pyInt (amount * (1 - TANK_SHIELD_REDUCTION)) : ℤ) : ℚ)
         else amount)
  | EKind.guard facing =>
      match fromAngle with
      | some a =>
          if isBulletShielded facing a then (e, false)
          else enemyApplyBase e amount
      | none => enemyApplyBase e amount

/-- Enemy.apply_slow (enemies.py 83-86). -/
def enemyApplySlow (e : EnemyU) (duration factor : ℚ) : EnemyU :=
  { e with slowTimer := max e.slowTimer duration,
           slowFactor := min e.slowFactor factor }

/-- The flash/slow timer maintenance of Enemy.update (enemies.py 88-95):
the flash timer is clamped at zero; the slow timer, when running, is
decremented and reset to exactly zero (with the factor restored) on expiry.
The arena-bounds clamp of the same method acts on positions only. -/
def enemyTickTimers (e : EnemyU) (dt : ℚ) : EnemyU :=
  let e := { e with flashTimer := max 0 (e.flashTimer - dt) }
  if 0 < e.slowTimer then
    let st := e.slowTimer - dt
    if st ≤ 0 then { e with slowTimer := 0, slowFactor := 1 }
    else { e with slowTimer := st }
  else e

/- ── Player damage and progression (player.py) ─────────────────────────── -/

/-- The fields of the player that the combat resolver reads and writes. -/
structure PlayerS where
  posX : ℚ
  posY : ℚ
  radius : ℚ
  hp : ℚ
  maxHp : ℚ
  xp : ℚ
  level : ℤ
  xpRequired : ℚ
  invincibleTimer : ℚ
  isDashing : Bool
  shieldTimer : ℚ
  flashTimer : ℚ
deriving DecidableEq, Repr

/-- Player.take_damage (player.py 107-123): a hit is ignored outright while
the invincibility window is open or a dash is in progress; a shield power-up
absorbs the hit (consuming one second of shield time, clamped at zero); an
actual hit subtracts the amount, opens a one-second invincibility window,
sets the flash timer and clamps hp at zero.  The Bool result reports whether
damage was actually taken. -/
def playerTakeDamage (p : PlayerS) (amount : ℚ) : PlayerS × Bool :=
  if 0 < p.invincibleTimer ∨ p.isDashing = true then (p, false)
  else if 0 < p.shieldTimer then
    ({ p with shieldTimer := max 0 (p.shieldTimer - 1) }, false)
  else
    let hp := p.hp - amount
    ({ p with hp := max 0 hp, invincibleTimer := 1, flashTimer := 1/5 }, true)

/-- Player.gain_xp (player.py 125-135): add the xp; on reaching the
requirement, carry the surplus, advance one level, recompute the requirement
as int(BASE_XP_REQUIRED * XP_SCALE_FACTOR^(level-1)) and heal 20 (capped at
max hp).  Returns the new state and whether a level-up happened.  The
particle emissions are external sinks and not modelled. -/
def gainXp (p : PlayerS) (amount : ℚ) : PlayerS × Bool :=
  let xp := p.xp + amount
  if p.xpRequired ≤ xp then
    let lvl := p.level + 1
    ({ p with xp := xp - p.xpRequired,
              level := lvl,
              xpRequired :=
                ((pyInt (BASE_XP_REQUIRED * XP_SCALE_FACTOR ^ (lvl - 1).toNat) : ℤ) : ℚ),
              hp := min p.maxHp (p.hp + 20) }, true)
  else ({ p with xp := xp }, false)

/-- The countdown timers that Player.update decrements (player.py 187-195),
every one through max(0, t - dt). -/
structure PlayerTimers where
  fireTimer : ℚ
  invincibleTimer : ℚ
  flashTimer : ℚ
  dashCooldownTimer : ℚ
  shieldTimer : ℚ
  doubleDamageTimer : ℚ
  speedBoostTimer : ℚ
  reflexTimer : ℚ
  railgunTimer : ℚ
deriving DecidableEq, Repr

/-- The timer block at the head of Player.update (player.py 187-195). -/
def playerTickTimers (t : PlayerTimers) (dt : ℚ) : PlayerTimers :=
  { fireTimer := max 0 (t.fireTimer - dt),
    invincibleTimer := max 0 (t.invincibleTimer - dt),
    flashTimer := max 0 (t.flashTimer - dt),
    dashCooldownTimer := max 0 (t.dashCooldownTimer - dt),
    shieldTimer := max 0 (t.shieldTimer - dt),
    doubleDamageTimer := max 0 (t.doubleDamageTimer - dt),
    speedBoostTimer := max 0 (t.speedBoostTimer - dt),
    reflexTimer := max 0 (t.reflexTimer - dt),
    railgunTimer := max 0 (t.railgunTimer - dt) }

/- ── Trial / augment state (game.py 962-1022) ──────────────────────────── -/

/-- The three independent augment flags ('sniper', 'slime', 'tank').
In the source these are dict-valued attributes of the player
(player.ult_upgrades, player.boss_artifacts); their operations all live in
game.py and are modelled below. -/
structure AugFlags where
  sniper : Bool
  slime : Bool
  tank : Bool
deriving DecidableEq, Repr

def AugFlags.get (f : AugFlags) : AugKind → Bool
  | AugKind.sniper => f.sniper
  | AugKind.slime => f.slime
  | AugKind.tank => f.tank

def AugFlags.set (f : AugFlags) (k : AugKind) (v : Bool) : AugFlags :=
  match k with
  | AugKind.sniper => { f with sniper := v }
  | AugKind.slime => { f with slime := v }
  | AugKind.tank => { f with tank := v }

/-- Modelled from the spec: the initial augment state of a fresh session.
The initialiser of player.ult_upgrades and player.boss_artifacts is part of
the player's ultimate-ability code, which is referenced by game.py but not
present under the provided sources; spec section 3 describes the flags as a
set of boolean augment flags, each independently unlockable, so a session
starts with every flag cleared. -/
def augFlagsInit : AugFlags := { sniper := false, slime := false, tank := false }

/-- The trial-challenge record of Game (game.py 127-135) together with the
player's augment dictionaries that the trial handlers read and write. -/
structure TrialS where
  trialActive : Bool
  trialType : AugKind
  trialKills : ℤ
  trialTarget : ℤ
  trialFailed : Bool
  ultUpgrades : AugFlags
  bossArtifacts : AugFlags
deriving DecidableEq, Repr

/-- Game._start_trial (game.py 964-971).  Notification timers and text are
external UI sinks and not modelled. -/
def startTrial (s : TrialS) (k : AugKind) : TrialS :=
  { s with trialActive := true, trialType := k,
           trialKills := 0, trialFailed := false }

/-- Game._on_trial_kill (game.py 973-988): a no-op unless a trial is active
and unfailed; otherwise advance the kill count and, on reaching the target,
unlock the corresponding augment and deactivate the trial. -/
def onTrialKill (s : TrialS) : TrialS :=
  if s.trialActive = false ∨ s.trialFailed = true then s
  else
    let s := { s with trialKills := s.trialKills + 1 }
    if s.trialTarget ≤ s.trialKills then
      { s with ultUpgrades := s.ultUpgrades.set s.trialType true,
               trialActive := false }
    else s

/-- Game._on_trial_damage (game.py 990-998): a no-op unless a trial is
active and unfailed; otherwise mark it failed, deactivate it and reset the
kill count. -/
def onTrialDamage (s : TrialS) : TrialS :=
  if s.trialActive = false ∨ s.trialFailed = true then s
  else { s with trialFailed := true, trialActive := false, trialKills := 0 }

/-- Game._award_boss_artifact (game.py 1000-1022): nothing happens when the
augment is already unlocked or the one-shot artifact flag for this boss
archetype was already set; only the very first qualifying boss kill sets the
flag and starts the trial. -/
def awardBossArtifact (s : TrialS) (k : AugKind) : TrialS :=
  if s.ultUpgrades.get k then s
  else if !(s.bossArtifacts.get k) then
    startTrial { s with bossArtifacts := s.bossArtifacts.set k true } k
  else s

/-- The gated damage call sites of game.py (enemy bullets at 1119, contact
at 1129, bomber blast at 690, toxic pools at 807): the trial-failure handler
runs only when take_damage reports that damage was actually dealt. -/
def playerHitGated (p : PlayerS) (s : TrialS) (amount : ℚ) :
    PlayerS × TrialS :=
  let r := playerTakeDamage p amount
  (r.1, if r.2 then onTrialDamage s else s)

/-- The boss-slam hit site of Game._check_collisions (game.py 1132-1141):
the return value of take_damage is discarded and _on_trial_damage runs
unconditionally. -/
def bossSlamHit (p : PlayerS) (s : TrialS) (slamDmg : ℚ) :
    PlayerS × TrialS :=
  ((playerTakeDamage p slamDmg).1, onTrialDamage s)

/- ── Chaser burst state machine (enemies.py 182-193) ───────────────────── -/

/-- The burst sub-state of a Chaser (enemies.py 169-172). -/
structure ChaserBurst where
  isBursting : Bool
  burstTimer : ℚ
  speed : ℚ
  baseSpeed : ℚ
deriving DecidableEq, Repr

/-- The burst-speed block of Chaser.update (enemies.py 182-193), the only
part of that method that reads or writes the burst sub-state.  distSq is the
squared distance to the player computed at entry to update (the guard
dist < 400 of the source becomes distSq < 400^2); r is the random.random()
draw and chance the configured CHASER_BURST_CHANCE (a config input per spec
section 6).  While bursting, the timer is decremented and, on expiry, the
state returns to normal with the base speed restored (the timer itself is
left at its negative value, as in the source). -/
def chaserBurstStep (chance : ℚ) (c : ChaserBurst) (distSq r dt : ℚ) :
    ChaserBurst :=
  if c.isBursting then
    let t := c.burstTimer - dt
    if t ≤ 0 then
      { c with isBursting := false, burstTimer := t, speed := c.baseSpeed }
    else { c with burstTimer := t }
  else
    if distSq < 400 ^ 2 ∧ r < chance then
      { c with isBursting := true, burstTimer := CHASER_BURST_DURATION,
               speed := c.baseSpeed * CHASER_BURST_SPEED_MULT }
    else c

/- ── SuicideBomber priming state machine (enemies.py 888-929) ──────────── -/

/-- The priming sub-state of a SuicideBomber (enemies.py 880-886). -/
structure BomberPrime where
  isPriming : Bool
  primeTimer : ℚ
  exploded : Bool
deriving DecidableEq, Repr

/-- The priming logic of SuicideBomber.update (enemies.py 893-898 and
924-927): while priming, the timer is decremented and on expiry the exploded
signal is raised (the method returns immediately, so movement stops);
otherwise, after the rush movement, priming starts when the distance to the
player measured at entry drops below BOMBER_PRIME_RANGE (the guard
dist < 60 becomes distSq < 60^2).  The rush movement itself (bounded-rate
turning plus wobble) only changes positions and is outside this sub-state. -/
def bomberPrimeStep (b : BomberPrime) (distSq dt : ℚ) : BomberPrime :=
  if b.isPriming then
    let t := b.primeTimer - dt
    if t ≤ 0 then { b with primeTimer := t, exploded := true }
    else { b with primeTimer := t }
  else
    if distSq < BOMBER_PRIME_RANGE ^ 2 then
      { b with isPriming := true, primeTimer := BOMBER_PRIME_DURATION }
    else b

/-- The SuicideBomber explosion handler of Game._update_playing (game.py
678-704), applied to one exploded bomber.  The player takes the bomber's
full damage when the blast disk overlaps the player disk (the guard
pdist < BOMBER_EXPLOSION_RADIUS + player.radius becomes the squared
comparison), routed through the gated trial-damage call; every other enemy
whose disk overlaps the blast receives exactly enemy.damage // 2 through its
own take_damage (Python floor division on the integer damage value); the
bomber itself is skipped by the identity test of the source, so the list
passed to bomberExplosionAt holds the other enemies; finally the bomber's hp
is forced to 0 and it is removed.  Sounds and particles are external sinks.
bomberSplash is the per-enemy half-damage splash of lines 693-700. -/
def bomberSplash (bomber o : EnemyU) : EnemyU :=
  if (o.posX - bomber.posX) ^ 2 + (o.posY - bomber.posY) ^ 2 <
      (BOMBER_EXPLOSION_RADIUS + o.radius) ^ 2 then
    (enemyTakeDamage o ((⌊bomber.damage / 2⌋ : ℤ) : ℚ) none).1
  else o

def bomberExplosionAt (bomber : EnemyU) (p : PlayerS) (s : TrialS)
    (others : List EnemyU) : PlayerS × TrialS × List EnemyU × EnemyU :=
  let hitP :=
    if (p.posX - bomber.posX) ^ 2 + (p.posY - bomber.posY) ^ 2 <
        (BOMBER_EXPLOSION_RADIUS + p.radius) ^ 2 then
      playerHitGated p s bomber.damage
    else (p, s)
  (hitP.1, hitP.2, others.map (bomberSplash bomber), { bomber with hp := 0 })

/- ── Tank timers and charge commitment (enemies.py 361-402) ────────────── -/

/-- The timer/phase sub-state of a Tank (enemies.py 341-350). -/
structure TankTimers where
  isShielded : Bool
  shieldTimer : ℚ
  shieldCooldownTimer : ℚ
  isCharging : Bool
  chargeTimer : ℚ
  chargeDuration : ℚ
deriving DecidableEq, Repr

/-- The shield-phase and charge blocks of Tank.update (enemies.py 366-400),
which are the only writers of the tank's timers.  distSq is the squared
distance to the player at entry (the guard dist < 400 of line 395 becomes
distSq < 400^2); chargeRestart stands for the random draw
2.0 + random.uniform(0, 1.5) of line 386.  Note that shield_timer,
shield_cooldown_timer and charge_timer are decremented without any clamp:
on expiry they are left at their negative value (the shield timers are then
overwritten when the opposite phase begins, but charge_timer keeps its
negative value for as long as the player stays out of charge range).
The movement itself (normalised walk or the committed charge vector) only
changes positions and is outside this sub-state. -/
def tankUpdateTimers (t : TankTimers) (distSq dt chargeRestart : ℚ) :
    TankTimers :=
  let t1 :=
    if t.isShielded then
      let st := t.shieldTimer - dt
      if st ≤ 0 then
        { t with isShielded := false, shieldTimer := st,
                 shieldCooldownTimer := TANK_SHIELD_COOLDOWN }
      else { t with shieldTimer := st }
    else
      let ct := t.shieldCooldownTimer - dt
      if ct ≤ 0 then
        { t with isShielded := true, shieldCooldownTimer := ct,
                 shieldTimer := TANK_SHIELD_DURATION }
      else { t with shieldCooldownTimer := ct }
  if t1.isCharging then
    let cd := t1.chargeDuration - dt
    if cd ≤ 0 then
      { t1 with isCharging := false, chargeDuration := cd,
                chargeTimer := chargeRestart }
    else { t1 with chargeDuration := cd }
  else
    let ch := t1.chargeTimer - dt
    if ch ≤ 0 ∧ distSq < 400 ^ 2 then
      { t1 with isCharging := true, chargeTimer := ch,
                chargeDuration := 3/5 }
    else { t1 with chargeTimer := ch }

/- ── Wave Director: boss cadence (enemy_manager.py 67-69, 183-196) ─────── -/

/-- EnemyManager._is_boss_wave (enemy_manager.py 67-69): a wave is a boss
wave when its number is positive and divisible by the interval.  The
interval is the BOSS_WAVE_INTERVAL config constant (5 in settings.py); it is
kept as a parameter so the statement can name the interval > 1 side
condition of the spec. -/
def isBossWave (interval n : ℕ) : Bool := 0 < n && n % interval == 0

/-- The wave-start step of EnemyManager.update (enemy_manager.py 185-195):
when the break timer expires, the wave number advances by one, so the wave
numbers produced over a session are exactly 1, 2, 3, ...; the new wave is a
boss wave exactly when _is_boss_wave says so. -/
def waveStart (wave : ℕ) : ℕ × Bool :=
  (wave + 1, isBossWave BOSS_WAVE_INTERVAL (wave + 1))

/- ── Wave Director: spawn placement (enemy_manager.py 101-136) ─────────── -/

/-- A camera viewport rectangle (pygame Rect, used via left/top/right/bottom
in _get_spawn_pos). -/
structure RectQ where
  left : ℚ
  top : ℚ
  right : ℚ
  bottom : ℚ
deriving DecidableEq, Repr

/-- One candidate of _get_spawn_pos before the arena clamp (enemy_manager.py
104-120): side is the random.randint(0, 3) draw, a the uniform draw along
the chosen edge band, b the uniform offset draw from the band
random.uniform(50, SPAWN_MARGIN). -/
def spawnCandidate (r : RectQ) (side : ℕ) (a b : ℚ) : ℚ × ℚ :=
  if side = 0 then (a, r.top - b)
  else if side = 1 then (a, r.bottom + b)
  else if side = 2 then (r.left - b, a)
  else (r.right + b, a)

/-- The ranges of the uniform draws feeding spawnCandidate, exactly as drawn
by the source: b from uniform(50, SPAWN_MARGIN), a from the edge band
stretched by SPAWN_MARGIN on both ends. -/
def spawnDrawInRange (r : RectQ) (side : ℕ) (a b : ℚ) : Prop :=
  side ≤ 3 ∧ 50 ≤ b ∧ b ≤ SPAWN_MARGIN ∧
  (if side ≤ 1 then r.left - SPAWN_MARGIN ≤ a ∧ a ≤ r.right + SPAWN_MARGIN
   else r.top - SPAWN_MARGIN ≤ a ∧ a ≤ r.bottom + SPAWN_MARGIN)

instance (r : RectQ) (side : ℕ) (a b : ℚ) :
    Decidable (spawnDrawInRange r side a b) := by
  unfold spawnDrawInRange; infer_instance

/-- The arena clamp applied to every spawn position (enemy_manager.py
122-123 and 134-135): x = max(30, min(ARENA_WIDTH - 30, x)) and likewise
for y. -/
def clampArena (p : ℚ × ℚ) : ℚ × ℚ :=
  (max 30 (min (ARENA_WIDTH - 30) p.1), max 30 (min (ARENA_HEIGHT - 30) p.2))

/-- The acceptance test of _get_spawn_pos (enemy_manager.py 125-128):
sqrt(dx*dx + dy*dy) >= SPAWN_MIN_DIST, stated on squares. -/
def spawnAccept (px py : ℚ) (p : ℚ × ℚ) : Bool :=
  SPAWN_MIN_DIST ^ 2 ≤ (p.1 - px) ^ 2 + (p.2 - py) ^ 2

/-- The retry loop of _get_spawn_pos over the drawn candidates (each a
(side, a, b) triple): the first clamped candidate far enough from the player
is returned. -/
def spawnSearch (px py : ℚ) (r : RectQ) : List (ℕ × ℚ × ℚ) → Option (ℚ × ℚ)
  | [] => none
  | (side, a, b) :: rest =>
      let p := clampArena (spawnCandidate r side a b)
      if spawnAccept px py p then some p else spawnSearch px py r rest

/-- The fallback of _get_spawn_pos (enemy_manager.py 130-136): a point at
distance SPAWN_MIN_DIST + 100 from the player in a random direction, then
clamped; (cosA, sinA) stands for the cosine/sine pair of the drawn angle. -/
def spawnFallback (px py cosA sinA : ℚ) : ℚ × ℚ :=
  clampArena (px + cosA * (SPAWN_MIN_DIST + 100), py + sinA * (SPAWN_MIN_DIST + 100))

/-- EnemyManager._get_spawn_pos (enemy_manager.py 101-136) as a function of
the drawn randomness: the source makes exactly 50 candidate draws (take 50)
and falls back afterwards.  The Bool records whether the fallback path was
taken. -/
def getSpawnPos (px py : ℚ) (r : RectQ) (draws : List (ℕ × ℚ × ℚ))
    (cosA sinA : ℚ) : (ℚ × ℚ) × Bool :=
  match spawnSearch px py r (draws.take 50) with
  | some p => (p, false)
  | none => (spawnFallback px py cosA sinA, true)

/-- A point lies strictly outside a viewport rectangle. -/
def outsideRect (r : RectQ) (p : ℚ × ℚ) : Prop :=
  p.1 < r.left ∨ r.right < p.1 ∨ p.2 < r.top ∨ r.bottom < p.2

instance (r : RectQ) (p : ℚ × ℚ) : Decidable (outsideRect r p) := by
  unfold outsideRect; infer_instance

/- ── Game frame state (game.py) ────────────────────────────────────────── -/

/-- A projectile as the combat resolver sees it (projectiles.py 15-32):
position, radius, damage, plus the angle/speed pair the constructor received
and the velocity derived from it. -/
structure BulletU where
  posX : ℚ
  posY : ℚ
  radius : ℚ
  damage : ℚ
  angle : ℚ
  speed : ℚ
  vx : ℚ
  vy : ℚ
deriving DecidableEq, Repr

/-- A damage-over-time area record (x, y, lifetime, damage, radius), the
tuple layout of Game.ghost_trails and Game.toxic_pools. -/
structure PoolT where
  x : ℚ
  y : ℚ
  lifetime : ℚ
  damage : ℚ
  radius : ℚ
deriving DecidableEq, Repr

/-- The per-frame game state the modelled handlers read and write: the
scoring/combo block of Game (game.py 440-443), the xp/level block of the
player, the ultimate charge, the trial record, and the entity collections. -/
structure GameCore where
  score : ℤ
  comboCounter : ℤ
  comboTimer : ℚ
  comboDisplayTimer : ℚ
  comboTier : ℤ
  ultCharge : ℚ
  trial : TrialS
  player : PlayerS
  enemies : List EnemyU
  playerBullets : List BulletU
  enemyBullets : List BulletU
  ghostTrails : List PoolT
  toxicPools : List PoolT
deriving DecidableEq, Repr

/-- Modelled from the spec: Player.gain_ult_charge.  The player's
ultimate-ability code (gain_ult_charge, try_activate_ultimate and the
ult_fired_this_frame flag) is referenced by game.py but is not present in
the provided player.py; spec section 3 bounds the charge to [0,
cooldown-max] and section 4.3 rule 4 credits charge on each kill, so a kill
adds ULT_CHARGE_PER_KILL capped at ULT_COOLDOWN. -/
def gainUltCharge (charge : ℚ) : ℚ :=
  min ULT_COOLDOWN (charge + ULT_CHARGE_PER_KILL)

/-- The per-enemy effect of the Neon Pulse base blast (game.py 907-920):
for an enemy strictly inside the pulse radius and not exactly on the player
(the guard edist < radius and edist > 0 on squares), push it back along the
normalised player-to-enemy direction (supplied by normDir, standing for
(edx/edist, edy/edist)), damage it through its own take_damage, and apply
the three-second slow. -/
def pulseEnemy (normDir : ℚ → ℚ → ℚ × ℚ) (px py pushback : ℚ) (e : EnemyU) :
    EnemyU :=
  let edx := e.posX - px
  let edy := e.posY - py
  let d2 := edx ^ 2 + edy ^ 2
  if d2 < ULT_PULSE_RADIUS ^ 2 ∧ 0 < d2 then
    let n := normDir edx edy
    let e := { e with posX := e.posX + n.1 * pushback * (15/100),
                      posY := e.posY + n.2 * pushback * (15/100) }
    let e := (enemyTakeDamage e ULT_PULSE_DAMAGE none).1
    enemyApplySlow e ULT_SLOW_DURATION ULT_SLOW_FACTOR
  else e

/-- A laser of the sniper augment (game.py 938-942, projectiles.py
LaserBullet): spawned at the player with speed ULT_LASER_SPEED and damage
ULT_LASER_DAMAGE toward the given angle; cosSin supplies the cosine/sine of
an angle in half-turn units. -/
def mkLaser (cosSin : ℚ → ℚ × ℚ) (x y angle : ℚ) : BulletU :=
  { posX := x, posY := y, radius := 6, damage := ULT_LASER_DAMAGE,
    angle := angle, speed := ULT_LASER_SPEED,
    vx := (cosSin angle).1 * ULT_LASER_SPEED,
    vy := (cosSin angle).2 * ULT_LASER_SPEED }

/-- Game._process_neon_pulse (game.py 896-960): the tank augment multiplies
the pushback; every enemy in radius is pushed, damaged and slowed; enemy
bullets in radius are destroyed; the sniper augment fires ULT_LASER_COUNT
auto-aimed lasers at the nearest enemies (sorting by distance equals sorting
by squared distance; atan2Q stands for math.atan2 in half-turn units); the
slime augment deposits ULT_TOXIC_POOL_COUNT toxic pools in a ring of radius
0.6 * pulse radius. -/
def processNeonPulse (normDir : ℚ → ℚ → ℚ × ℚ) (cosSin : ℚ → ℚ × ℚ)
    (atan2Q : ℚ → ℚ → ℚ) (g : GameCore) : GameCore :=
  let px := g.player.posX
  let py := g.player.posY
  let pushback :=
    if g.trial.ultUpgrades.tank then ULT_PUSHBACK_FORCE * ULT_TANK_PUSHBACK_MULT
    else ULT_PUSHBACK_FORCE
  let enemies := g.enemies.map (pulseEnemy normDir px py pushback)
  let enemyBullets := g.enemyBullets.filter (fun b =>
    ¬((b.posX - px) ^ 2 + (b.posY - py) ^ 2 < ULT_PULSE_RADIUS ^ 2))
  let playerBullets :=
    if g.trial.ultUpgrades.sniper then
      let sorted := enemies.mergeSort (fun e1 e2 =>
        (e1.posX - px) ^ 2 + (e1.posY - py) ^ 2 ≤
        (e2.posX - px) ^ 2 + (e2.posY - py) ^ 2)
      g.playerBullets ++ (sorted.take ULT_LASER_COUNT).map (fun t =>
        mkLaser cosSin px py (atan2Q (t.posY - py) (t.posX - px)))
    else g.playerBullets
  let toxicPools :=
    if g.trial.ultUpgrades.slime then
      g.toxicPools ++ (List.range ULT_TOXIC_POOL_COUNT).map (fun i =>
        let dir := cosSin (2 * (i : ℚ) / (ULT_TOXIC_POOL_COUNT : ℚ))
        { x := px + dir.1 * (ULT_PULSE_RADIUS * (6/10)),
          y := py + dir.2 * (ULT_PULSE_RADIUS * (6/10)),
          lifetime := ULT_TOXIC_POOL_LIFETIME,
          damage := ULT_TOXIC_POOL_DAMAGE,
          radius := ULT_TOXIC_POOL_RADIUS })
    else g.toxicPools
  { g with enemies := enemies, enemyBullets := enemyBullets,
           playerBullets := playerBullets, toxicPools := toxicPools }

/-- The ghost-trail loop of Game._update_playing (game.py 774-787): each
trail loses dt of lifetime; an expired trail is dropped; a live trail
damages every enemy whose disk overlaps it (tdmg * dt through the enemy's
own take_damage), in trail order. -/
def ghostTrailsGo (dt : ℚ) :
    List PoolT → List EnemyU → List PoolT × List EnemyU
  | [], es => ([], es)
  | t :: rest, es =>
      let life := t.lifetime - dt
      if 0 < life then
        let es := es.map (fun e =>
          if (e.posX - t.x) ^ 2 + (e.posY - t.y) ^ 2 <
              (t.radius + e.radius) ^ 2 then
            (enemyTakeDamage e (t.damage * dt) none).1
          else e)
        let r := ghostTrailsGo dt rest es
        ({ t with lifetime := life } :: r.1, r.2)
      else ghostTrailsGo dt rest es

/-- Wrapper of ghostTrailsGo on the game state. -/
def ghostTrailStep (g : GameCore) (dt : ℚ) : GameCore :=
  let r := ghostTrailsGo dt g.ghostTrails g.enemies
  { g with ghostTrails := r.1, enemies := r.2 }

/-- The toxic-pool loop of Game._update_playing (game.py 796-809): each
pool loses dt of lifetime; an expired pool is dropped; a live pool damages
the player when the disks overlap, through the gated trial-damage call. -/
def toxicPoolsGo (dt : ℚ) :
    List PoolT → PlayerS → TrialS → List PoolT × PlayerS × TrialS
  | [], p, s => ([], p, s)
  | t :: rest, p, s =>
      let life := t.lifetime - dt
      if 0 < life then
        let hit :=
          if (p.posX - t.x) ^ 2 + (p.posY - t.y) ^ 2 <
              (t.radius + p.radius) ^ 2 then
            playerHitGated p s t.damage
          else (p, s)
        let r := toxicPoolsGo dt rest hit.1 hit.2
        ({ t with lifetime := life } :: r.1, r.2)
      else toxicPoolsGo dt rest p s

/-- Wrapper of toxicPoolsGo on the game state. -/
def toxicPoolStep (g : GameCore) (dt : ℚ) : GameCore :=
  let r := toxicPoolsGo dt g.toxicPools g.player g.trial
  { g with toxicPools := r.1, player := r.2.1, trial := r.2.2 }

/-- The dash-shockwave block of Game._update_playing (game.py 816-847),
with the upgrade level swLevel > 0: every enemy strictly inside the radius
and off-centre is pushed along the normalised direction and damaged by
10 * swLevel through its own take_damage; enemy bullets inside the radius
are destroyed.  Radius and pushback grow with the level as in the source. -/
def dashShockwave (normDir : ℚ → ℚ → ℚ × ℚ) (g : GameCore) (swLevel : ℕ)
    (px py : ℚ) : GameCore :=
  if swLevel = 0 then g
  else
    let radius := SHOCKWAVE_RADIUS + 30 * ((swLevel : ℚ) - 1)
    let pushback := SHOCKWAVE_PUSHBACK * (1 + (3/10) * ((swLevel : ℚ) - 1))
    let enemies := g.enemies.map (fun e =>
      let edx := e.posX - px
      let edy := e.posY - py
      let d2 := edx ^ 2 + edy ^ 2
      if d2 < radius ^ 2 ∧ 0 < d2 then
        let n := normDir edx edy
        let e := { e with posX := e.posX + n.1 * pushback * (1/10),
                          posY := e.posY + n.2 * pushback * (1/10) }
        (enemyTakeDamage e (10 * (swLevel : ℚ)) none).1
      else e)
    let enemyBullets := g.enemyBullets.filter (fun b =>
      ¬((b.posX - px) ^ 2 + (b.posY - py) ^ 2 < radius ^ 2))
    { g with enemies := enemies, enemyBullets := enemyBullets }

/-- The kill branch of the player-bullet collision loop in
Game._check_collisions (game.py 1070-1108), run when a player bullet has
just killed enemy e: advance the combo and its window, add
int(xp_value * (1 + (combo-1)*0.25) * SCORE_MULTIPLIER) to the score,
update the combo tier at the milestones, credit ultimate charge, advance
the active trial, award the boss artifact for a boss kill, and feed the xp
to the player.  Sounds, particles and the level-up state switch are
external sinks. -/
def onBulletKill (g : GameCore) (e : EnemyU) : GameCore :=
  let combo := g.comboCounter + 1
  let comboMult : ℚ := 1 + ((combo : ℚ) - 1) * (25/100)
  let points := pyInt (e.xpValue * comboMult * SCORE_MULTIPLIER)
  let tier :=
    if combo = COMBO_TIER1_THRESHOLD then (1 : ℤ)
    else if combo = COMBO_TIER2_THRESHOLD then 2
    else if combo < COMBO_TIER1_THRESHOLD then 0
    else g.comboTier
  let trial := onTrialKill g.trial
  let trial := if e.isBoss then awardBossArtifact trial e.bossAug else trial
  { g with comboCounter := combo, comboTimer := COMBO_WINDOW,
           score := g.score + points, comboDisplayTimer := 3/5,
           comboTier := tier,
           ultCharge := gainUltCharge g.ultCharge,
           trial := trial,
           player := (gainXp g.player e.xpValue).1 }

/-- A concrete frame state — score 100, combo 2, an active sniper trial at
3 of 10 kills, a vulnerable full-hp player, no entities in flight — used to
exercise the handlers on explicit inputs. -/
def sampleCore : GameCore :=
  { score := 100, comboCounter := 2, comboTimer := 0,
    comboDisplayTimer := 0, comboTier := 0, ultCharge := 10,
    trial := { trialActive := true, trialType := AugKind.sniper,
               trialKills := 3, trialTarget := 10, trialFailed := false,
               ultUpgrades := augFlagsInit, bossArtifacts := augFlagsInit },
    player := { posX := 0, posY := 0, radius := 20, hp := 100, maxHp := 100,
                xp := 0, level := 1, xpRequired := 100, invincibleTimer := 0,
                isDashing := false, shieldTimer := 0, flashTimer := 0 },
    enemies := [], playerBullets := [], enemyBullets := [],
    ghostTrails := [], toxicPools := [] }

/-- A concrete non-boss chaser-stat victim enemy for the kill branch. -/
def sampleVictim : EnemyU :=
  { posX := 0, posY := 0, radius := 16, hp := 0, damage := 8, xpValue := 20,
    flashTimer := 0, slowTimer := 0, slowFactor := 1, isBoss := false,
    bossAug := AugKind.tank, kind := EKind.plain }

/- ════════════════════════════════════════════════════════════════════════
   Theorems
   ════════════════════════════════════════════════════════════════════════ -/

/- ── Shared helper lemmas ──────────────────────────────────────────────── -/

theorem spawnSearch_accept (px py : ℚ) (r : RectQ) :
    ∀ l p, spawnSearch px py r l = some p → spawnAccept px py p = true := by
  intro l
  induction l with
  | nil => intro p h; simp [spawnSearch] at h
  | cons hd tl ih =>
      intro p h
      obtain ⟨side, a, b⟩ := hd
      simp only [spawnSearch] at h
      by_cases hacc :
          spawnAccept px py (clampArena (spawnCandidate r side a b)) = true
      · rw [if_pos hacc] at h
        cases h
        exact hacc
      · rw [if_neg hacc] at h
        exact ih p h

theorem playerTakeDamage_xp (p : PlayerS) (amount : ℚ) :
    (playerTakeDamage p amount).1.xp = p.xp := by
  unfold playerTakeDamage
  split_ifs <;> rfl

theorem toxicPoolsGo_frame (dt : ℚ) :
    ∀ pools (p : PlayerS) (s : TrialS),
      (toxicPoolsGo dt pools p s).2.1.xp = p.xp ∧
      ((toxicPoolsGo dt pools p s).2.2.trialKills = s.trialKills ∨
        (toxicPoolsGo dt pools p s).2.2.trialKills = 0) := by
  intro pools
  induction pools with
  | nil => intro p s; simp [toxicPoolsGo]
  | cons t rest ih =>
      intro p s
      simp only [toxicPoolsGo]
      split_ifs with hlife hhit
      · have hgx : (playerHitGated p s t.damage).1.xp = p.xp :=
          playerTakeDamage_xp p t.damage
        have hgk : (playerHitGated p s t.damage).2.trialKills = s.trialKills ∨
            (playerHitGated p s t.damage).2.trialKills = 0 := by
          unfold playerHitGated onTrialDamage
          cases hdmg : (playerTakeDamage p t.damage).2 <;>
            split_ifs <;> simp_all
        obtain ⟨ihx, ihk⟩ :=
          ih (playerHitGated p s t.damage).1 (playerHitGated p s t.damage).2
        refine ⟨by rw [ihx, hgx], ?_⟩
        rcases ihk with h | h
        · rcases hgk with h2 | h2
          · exact Or.inl (by rw [h, h2])
          · exact Or.inr (by rw [h, h2])
        · exact Or.inr h
      · exact ih p s
      · exact ih p s

theorem enemyApplyBase_hp (e : EnemyU) (amount : ℚ) :
    (enemyApplyBase e amount).1.hp = max 0 (e.hp - amount) := by
  unfold enemyApplyBase
  dsimp only
  split_ifs with h
  · simp [max_eq_left h]
  · simp [max_eq_right (not_le.mp h).le]

theorem enemyApplyBase_killed (e : EnemyU) (amount : ℚ) :
    ((enemyApplyBase e amount).2 = true) ↔ e.hp ≤ amount := by
  unfold enemyApplyBase
  dsimp only
  split_ifs with h
  · simpa using by linarith
  · simp only [Bool.false_eq_true, false_iff]
    intro hc
    exact h (by linarith)

/- ── C1 ─ take_damage with amount hp + 1 ───────────────────────────────── -/

/-- C1 counterexample: the claim quantifies over every archetype and every
current state, but a Tank in its shielded phase mitigates the amount before
the hp subtraction (enemies.py 352-359): at hp 200, take_damage(hp + 1)
reduces the amount to int(201 * 0.3) = 60, leaving hp at 140 and the tank
alive rather than killed with hp 0. -/
theorem C1_shielded_tank_counterexample :
    enemyTakeDamage
      { posX := 0, posY := 0, radius := 28, hp := 200, damage := 18, xpValue := 50,
        flashTimer := 0, slowTimer := 0, slowFactor := 1, isBoss := false,
        bossAug := AugKind.tank, kind := EKind.tank true } (200 + 1) none =
    ({ posX := 0, posY := 0, radius := 28, hp := 140, damage := 18, xpValue := 50,
       flashTimer := 1/10, slowTimer := 0, slowFactor := 1, isBoss := false,
       bossAug := AugKind.tank, kind := EKind.tank true }, false) := by
  norm_num [enemyTakeDamage, enemyApplyBase, pyInt, TANK_SHIELD_REDUCTION]

/-- C1 (amended): for every enemy whose damage path applies the amount
unmitigated — any archetype through the base rule of enemies.py 70-81, a
Tank only while its shield phase is down, a ShieldGuard only when the hit is
not deflected (no origin angle, or an origin angle outside the arc) —
take_damage with amount hp + 1 kills the enemy and clamps hp to exactly 0;
a Tank in its shielded phase first shrinks the amount and can survive. -/
theorem C1_unmitigated_take_damage_kills (e : EnemyU) (f a : ℚ) :
    (e.kind = EKind.plain →
      enemyTakeDamage e (e.hp + 1) none =
        ({ e with hp := 0, flashTimer := 1/10 }, true)) ∧
    (e.kind = EKind.tank false →
      enemyTakeDamage e (e.hp + 1) none =
        ({ e with hp := 0, flashTimer := 1/10 }, true)) ∧
    (e.kind = EKind.guard f → isBulletShielded f a = false →
      enemyTakeDamage e (e.hp + 1) (some a) =
        ({ e with hp := 0, flashTimer := 1/10 }, true)) ∧
    (e.kind = EKind.guard f →
      enemyTakeDamage e (e.hp + 1) none =
        ({ e with hp := 0, flashTimer := 1/10 }, true)) := by
  have hneg : e.hp - (e.hp + 1) ≤ 0 := by linarith
  refine ⟨fun hk => ?_, fun hk => ?_, fun hk hs => ?_, fun hk => ?_⟩ <;>
    simp [enemyTakeDamage, hk, enemyApplyBase, hneg, *]

/-- C1 witness: the amended theorem applied to a ShieldGuard at hp 250 hit
from an angle outside the arc. -/
theorem C1_unmitigated_take_damage_kills_witness :
    isBulletShielded 0 1 = false ∧
    enemyTakeDamage
      { posX := 0, posY := 0, radius := 26, hp := 250, damage := 15, xpValue := 55,
        flashTimer := 0, slowTimer := 0, slowFactor := 1, isBoss := false,
        bossAug := AugKind.tank, kind := EKind.guard 0 } (250 + 1) (some 1) =
    ({ posX := 0, posY := 0, radius := 26, hp := 0, damage := 15, xpValue := 55,
       flashTimer := 1/10, slowTimer := 0, slowFactor := 1, isBoss := false,
       bossAug := AugKind.tank, kind := EKind.guard 0 }, true) :=
  ⟨by simp only [isBulletShielded, angleDiff, SHIELD_GUARD_ARC]; norm_num,
    (C1_unmitigated_take_damage_kills
      { posX := 0, posY := 0, radius := 26, hp := 250, damage := 15, xpValue := 55,
        flashTimer := 0, slowTimer := 0, slowFactor := 1, isBoss := false,
        bossAug := AugKind.tank, kind := EKind.guard 0 } 0 1).2.2.1
      rfl (by simp only [isBulletShielded, angleDiff, SHIELD_GUARD_ARC]; norm_num)⟩

/- ── C4 ─ ShieldGuard directional shield ──────────────────────────────── -/

/-- C4: for a ShieldGuard, take_damage with an origin angle whose wrapped
angular difference from facing_angle is at most half the shield arc (the
inclusive convention of enemies.py 1009) leaves the state unchanged and
reports no kill, while an origin angle outside the arc applies the full
amount with no mitigation: hp becomes max 0 (hp - amount) — exactly
hp - amount whenever the amount does not exceed hp — and the hit kills
exactly when the amount reaches hp. -/
theorem C4_shield_guard_arc (e : EnemyU) (f a amount : ℚ)
    (hk : e.kind = EKind.guard f) :
    (isBulletShielded f a = true →
      enemyTakeDamage e amount (some a) = (e, false)) ∧
    (isBulletShielded f a = false →
      (enemyTakeDamage e amount (some a)).1.hp = max 0 (e.hp - amount) ∧
      ((enemyTakeDamage e amount (some a)).2 = true ↔ e.hp ≤ amount) ∧
      (amount ≤ e.hp →
        (enemyTakeDamage e amount (some a)).1.hp = e.hp - amount)) := by
  have hunfold : isBulletShielded f a = false →
      enemyTakeDamage e amount (some a) = enemyApplyBase e amount := by
    intro hs
    simp [enemyTakeDamage, hk, hs]
  constructor
  · intro hs
    simp [enemyTakeDamage, hk, hs]
  · intro hs
    rw [hunfold hs, enemyApplyBase_hp, enemyApplyBase_killed]
    refine ⟨rfl, Iff.rfl, fun hge => max_eq_right (by linarith)⟩

/-- C4 witness: the theorem applied to a ShieldGuard facing angle 0, once
for a frontal hit (angle 0, inside the 120-degree arc: state unchanged) and
once for a rear hit (angle 1, i.e. directly behind: full 30 damage off
hp 250). -/
theorem C4_shield_guard_arc_witness :
    (enemyTakeDamage
      { posX := 0, posY := 0, radius := 26, hp := 250, damage := 15, xpValue := 55,
        flashTimer := 0, slowTimer := 0, slowFactor := 1, isBoss := false,
        bossAug := AugKind.tank, kind := EKind.guard 0 } 30 (some 0)) =
      ({ posX := 0, posY := 0, radius := 26, hp := 250, damage := 15, xpValue := 55,
         flashTimer := 0, slowTimer := 0, slowFactor := 1, isBoss := false,
         bossAug := AugKind.tank, kind := EKind.guard 0 }, false) ∧
    (enemyTakeDamage
      { posX := 0, posY := 0, radius := 26, hp := 250, damage := 15, xpValue := 55,
        flashTimer := 0, slowTimer := 0, slowFactor := 1, isBoss := false,
        bossAug := AugKind.tank, kind := EKind.guard 0 } 30 (some 1)).1.hp =
      250 - 30 :=
  ⟨(C4_shield_guard_arc
      { posX := 0, posY := 0, radius := 26, hp := 250, damage := 15, xpValue := 55,
        flashTimer := 0, slowTimer := 0, slowFactor := 1, isBoss := false,
        bossAug := AugKind.tank, kind := EKind.guard 0 } 0 0 30 rfl).1
      (by simp only [isBulletShielded, angleDiff, SHIELD_GUARD_ARC]; norm_num),
   ((C4_shield_guard_arc
      { posX := 0, posY := 0, radius := 26, hp := 250, damage := 15, xpValue := 55,
        flashTimer := 0, slowTimer := 0, slowFactor := 1, isBoss := false,
        bossAug := AugKind.tank, kind := EKind.guard 0 } 0 1 30 rfl).2
      (by simp only [isBulletShielded, angleDiff, SHIELD_GUARD_ARC]; norm_num)).2.2
      (by norm_num)⟩

/- ── C5 ─ Chaser burst scenario ────────────────────────────────────────── -/

/-- C5 counterexample: the burst guard of Chaser.update (enemies.py 190)
requires the distance to the player to be below 400; at distance 500 the
update leaves the chaser in the Normal state at base speed even with the
burst chance forced to certainty, rather than putting it in Bursting at
base speed times the burst multiplier as the claim asserts. -/
theorem C5_distance_500_counterexample :
    chaserBurstStep 1
      { isBursting := false, burstTimer := 0, speed := 150, baseSpeed := 150 }
      (500 ^ 2) (1/2) (1/10) =
      { isBursting := false, burstTimer := 0, speed := 150, baseSpeed := 150 } ∧
    (150 : ℚ) ≠ 150 * CHASER_BURST_SPEED_MULT := by
  norm_num [chaserBurstStep, CHASER_BURST_SPEED_MULT]

/-- C5 (amended): the burst transition needs distance below 400 — at
distance 500 nothing happens.  Within that proximity threshold, when the
per-tick draw falls below the (forced-certain) burst chance, a single
update puts the Chaser in Bursting with speed equal to base speed times
CHASER_BURST_SPEED_MULT and the burst timer at CHASER_BURST_DURATION; and
once the burst duration has elapsed the next update returns it to Normal
with the base speed restored. -/
theorem C5_chaser_burst_amended (chance : ℚ) (c : ChaserBurst)
    (distSq r dt : ℚ) :
    (c.isBursting = false → distSq < 400 ^ 2 → r < chance →
      chaserBurstStep chance c distSq r dt =
        { c with isBursting := true, burstTimer := CHASER_BURST_DURATION,
                 speed := c.baseSpeed * CHASER_BURST_SPEED_MULT }) ∧
    (c.isBursting = true → c.burstTimer ≤ dt →
      (chaserBurstStep chance c distSq r dt).isBursting = false ∧
      (chaserBurstStep chance c distSq r dt).speed = c.baseSpeed) := by
  constructor
  · intro hb hd hr
    simp [chaserBurstStep, hb, hd, hr]
  · intro hb ht
    have : c.burstTimer - dt ≤ 0 := by linarith
    simp [chaserBurstStep, hb, this]

/-- C5 witness: a fresh chaser 300 away from the player bursts on one
update with the chance forced to 1, reaching speed 450 = 150 * 3; a
bursting chaser whose timer has run out drops back to 150. -/
theorem C5_chaser_burst_amended_witness :
    chaserBurstStep 1
      { isBursting := false, burstTimer := 0, speed := 150, baseSpeed := 150 }
      (300 ^ 2) (1/2) (1/10) =
      { isBursting := true, burstTimer := CHASER_BURST_DURATION,
        speed := 150 * CHASER_BURST_SPEED_MULT, baseSpeed := 150 } ∧
    (chaserBurstStep 1
      { isBursting := true, burstTimer := 1/20, speed := 450, baseSpeed := 150 }
      (300 ^ 2) (1/2) (1/10)).isBursting = false ∧
    (chaserBurstStep 1
      { isBursting := true, burstTimer := 1/20, speed := 450, baseSpeed := 150 }
      (300 ^ 2) (1/2) (1/10)).speed = 150 :=
  ⟨(C5_chaser_burst_amended 1
      { isBursting := false, burstTimer := 0, speed := 150, baseSpeed := 150 }
      (300 ^ 2) (1/2) (1/10)).1 rfl (by norm_num) (by norm_num),
   ((C5_chaser_burst_amended 1
      { isBursting := true, burstTimer := 1/20, speed := 450, baseSpeed := 150 }
      (300 ^ 2) (1/2) (1/10)).2 rfl (by norm_num)).1,
   ((C5_chaser_burst_amended 1
      { isBursting := true, burstTimer := 1/20, speed := 450, baseSpeed := 150 }
      (300 ^ 2) (1/2) (1/10)).2 rfl (by norm_num)).2⟩

theorem AugFlags.get_set_self (f : AugFlags) (k : AugKind) (v : Bool) :
    (f.set k v).get k = v := by
  cases k <;> rfl

/- ── C2 ─ Wave Director spawn placement ───────────────────────────────── -/

/-- C2 counterexample: the claim asserts that every candidate-path return is
outside the viewport by the spawn margin, but the arena-bounds clamp of
enemy_manager.py 122-123 runs before the acceptance test and can pull a
sampled candidate back inside the viewport.  With the camera at the arena's
top-left corner (viewport 0..1280 x 0..720), the player at (3000, 3000) and
a legitimate first draw (side 0, along-edge 600, offset 60), the sampled
point (600, -60) is clamped to (600, 30), which is accepted — it is far from
the player — yet lies inside the viewport rectangle. -/
theorem C2_spawn_inside_viewport_counterexample :
    getSpawnPos 3000 3000 { left := 0, top := 0, right := 1280, bottom := 720 }
      [(0, 600, 60)] 1 0 = ((600, 30), false) ∧
    ¬ outsideRect { left := 0, top := 0, right := 1280, bottom := 720 }
        (600, 30) ∧
    spawnDrawInRange { left := 0, top := 0, right := 1280, bottom := 720 }
      0 600 60 := by
  refine ⟨?_, ?_, ?_⟩
  · norm_num [getSpawnPos, spawnSearch, spawnCandidate, clampArena, spawnAccept,
      ARENA_WIDTH, ARENA_HEIGHT, SPAWN_MIN_DIST, max_def, min_def]
  · norm_num [outsideRect]
  · norm_num [spawnDrawInRange, SPAWN_MARGIN]

/-- C2 (amended): every spawn position returned by the candidate-sampling
path (fallback flag false) is at least SPAWN_MIN_DIST from the player,
because the acceptance test runs on the clamped position itself; and every
sampled candidate lies strictly outside the viewport rectangle before the
arena clamp, its offset from the edge being drawn from [50, SPAWN_MARGIN].
The clamp to the arena interior can move an accepted candidate back inside
the viewport (see the counterexample), so of the claim's two viewport
properties only the minimum-distance guarantee holds of the returned
position; the fallback path after the 50-attempt budget is exempt as
documented. -/
theorem C2_spawn_candidate_guarantees (px py : ℚ) (r : RectQ)
    (draws : List (ℕ × ℚ × ℚ)) (cosA sinA : ℚ) (p : ℚ × ℚ)
    (side : ℕ) (a b : ℚ)
    (hres : getSpawnPos px py r draws cosA sinA = (p, false))
    (hdraw : spawnDrawInRange r side a b) :
    SPAWN_MIN_DIST ^ 2 ≤ (p.1 - px) ^ 2 + (p.2 - py) ^ 2 ∧
    outsideRect r (spawnCandidate r side a b) := by
  constructor
  · unfold getSpawnPos at hres
    cases hsearch : spawnSearch px py r (draws.take 50) with
    | none =>
        rw [hsearch] at hres
        simp at hres
    | some q =>
        rw [hsearch] at hres
        simp only [Prod.mk.injEq] at hres
        have hacc := spawnSearch_accept px py r (draws.take 50) q hsearch
        simp only [spawnAccept, decide_eq_true_eq] at hacc
        rw [← hres.1]
        exact hacc
  · obtain ⟨hside, hb1, hb2, hrange⟩ := hdraw
    unfold spawnCandidate outsideRect
    split_ifs with h0 h1 h2
    · exact Or.inr (Or.inr (Or.inl (by simp; linarith)))
    · exact Or.inr (Or.inr (Or.inr (by simp; linarith)))
    · exact Or.inl (by simp; linarith)
    · exact Or.inr (Or.inl (by simp; linarith))

/-- C2 witness: the guarantees applied to the counterexample input — the
accepted position (600, 30) is indeed at least 500 from the player at
(3000, 3000), and the pre-clamp candidate (600, -60) is outside the
viewport. -/
theorem C2_spawn_candidate_guarantees_witness :
    SPAWN_MIN_DIST ^ 2 ≤
      (((600 : ℚ), (30 : ℚ)).1 - 3000) ^ 2 +
      (((600 : ℚ), (30 : ℚ)).2 - 3000) ^ 2 ∧
    outsideRect { left := 0, top := 0, right := 1280, bottom := 720 }
      (spawnCandidate { left := 0, top := 0, right := 1280, bottom := 720 }
        0 600 60) :=
  C2_spawn_candidate_guarantees 3000 3000
    { left := 0, top := 0, right := 1280, bottom := 720 }
    [(0, 600, 60)] 1 0 (600, 30) 0 600 60
    (by norm_num [getSpawnPos, spawnSearch, spawnCandidate, clampArena,
      spawnAccept, ARENA_WIDTH, ARENA_HEIGHT, SPAWN_MIN_DIST, max_def, min_def])
    (by norm_num [spawnDrawInRange, SPAWN_MARGIN])

/- ── C3 ─ trial failure and player damage ─────────────────────────────── -/

/-- C3 counterexample: the boss-slam branch of Game._check_collisions
(game.py 1132-1141) discards the return value of player.take_damage and
calls _on_trial_damage unconditionally, so a slam landing during the
player's invincibility window fails the active trial even though no damage
is dealt: the player state is returned unchanged (take_damage reports
false), yet the trial comes back failed, deactivated and with its kill
count reset — refuting the claimed equivalence between trial failure and
actually taking damage. -/
theorem C3_slam_fails_trial_without_damage_counterexample :
    bossSlamHit
      { posX := 0, posY := 0, radius := 20, hp := 100, maxHp := 100, xp := 0,
        level := 1, xpRequired := 100, invincibleTimer := 1/2,
        isDashing := false, shieldTimer := 0, flashTimer := 0 }
      { trialActive := true, trialType := AugKind.sniper, trialKills := 3,
        trialTarget := 10, trialFailed := false,
        ultUpgrades := augFlagsInit, bossArtifacts := augFlagsInit } 30 =
    ({ posX := 0, posY := 0, radius := 20, hp := 100, maxHp := 100, xp := 0,
       level := 1, xpRequired := 100, invincibleTimer := 1/2,
       isDashing := false, shieldTimer := 0, flashTimer := 0 },
     { trialActive := false, trialType := AugKind.sniper, trialKills := 0,
       trialTarget := 10, trialFailed := true,
       ultUpgrades := augFlagsInit, bossArtifacts := augFlagsInit }) ∧
    (playerTakeDamage
      { posX := 0, posY := 0, radius := 20, hp := 100, maxHp := 100, xp := 0,
        level := 1, xpRequired := 100, invincibleTimer := 1/2,
        isDashing := false, shieldTimer := 0, flashTimer := 0 } 30).2 =
      false := by
  norm_num [bossSlamHit, playerTakeDamage, onTrialDamage, augFlagsInit]

/-- C3 (amended): while a trial is active and unfailed, every gated damage
site (enemy bullets, contact, bomber blast, toxic pools) fails the trial
exactly when player.take_damage reports damage dealt, and a hit landing
during invincibility, a dash or with shield time active deals no damage and
leaves the trial untouched; the boss-slam site is the exception, failing
the trial unconditionally even when no damage is dealt.  The trial
succeeds, unlocking the corresponding augment and deactivating, exactly
when the advanced kill count reaches the target; short of the target only
the kill count advances. -/
theorem C3_trial_failure_amended (p : PlayerS) (s : TrialS) (amount : ℚ)
    (hA : s.trialActive = true) (hF : s.trialFailed = false) :
    ((playerHitGated p s amount).2.trialFailed = true ↔
      (playerTakeDamage p amount).2 = true) ∧
    ((playerTakeDamage p amount).2 = false →
      (playerHitGated p s amount).2 = s) ∧
    ((0 < p.invincibleTimer ∨ p.isDashing = true ∨ 0 < p.shieldTimer) →
      (playerTakeDamage p amount).2 = false ∧
      (playerTakeDamage p amount).1.hp = p.hp) ∧
    (bossSlamHit p s amount).2.trialFailed = true ∧
    (s.trialTarget ≤ s.trialKills + 1 →
      (onTrialKill s).ultUpgrades.get s.trialType = true ∧
      (onTrialKill s).trialActive = false) ∧
    (s.trialKills + 1 < s.trialTarget →
      (onTrialKill s).trialKills = s.trialKills + 1 ∧
      (onTrialKill s).trialActive = true ∧
      (onTrialKill s).ultUpgrades = s.ultUpgrades) := by
  refine ⟨?_, ?_, ?_, ?_, ?_, ?_⟩
  · cases hd : (playerTakeDamage p amount).2 <;>
      simp [playerHitGated, onTrialDamage, hA, hF, hd]
  · intro hd
    simp [playerHitGated, hd]
  · intro himm
    rcases himm with h | h | h
    · have hc : 0 < p.invincibleTimer ∨ p.isDashing = true := Or.inl h
      simp [playerTakeDamage, hc]
    · have hc : 0 < p.invincibleTimer ∨ p.isDashing = true := Or.inr h
      simp [playerTakeDamage, hc]
    · by_cases hc : 0 < p.invincibleTimer ∨ p.isDashing = true
      · simp [playerTakeDamage, hc]
      · simp [playerTakeDamage, hc, h]
  · simp [bossSlamHit, onTrialDamage, hA, hF]
  · intro hreach
    simp [onTrialKill, hA, hF, hreach, AugFlags.get_set_self]
  · intro hshort
    have : ¬ s.trialTarget ≤ s.trialKills + 1 := by linarith
    simp [onTrialKill, hA, hF, this]

/-- C3 witness: the amended theorem applied to an active trial at 3 of 10
kills and a vulnerable player at full hp — a 30-damage gated hit both deals
damage and fails the trial, the slam branch fails it too, and one more kill
advances the count to 4 without unlocking anything. -/
theorem C3_trial_failure_amended_witness :
    ((playerHitGated
      { posX := 0, posY := 0, radius := 20, hp := 100, maxHp := 100, xp := 0,
        level := 1, xpRequired := 100, invincibleTimer := 0,
        isDashing := false, shieldTimer := 0, flashTimer := 0 }
      { trialActive := true, trialType := AugKind.sniper, trialKills := 3,
        trialTarget := 10, trialFailed := false,
        ultUpgrades := augFlagsInit, bossArtifacts := augFlagsInit }
      30).2.trialFailed = true ↔
      (playerTakeDamage
        { posX := 0, posY := 0, radius := 20, hp := 100, maxHp := 100, xp := 0,
          level := 1, xpRequired := 100, invincibleTimer := 0,
          isDashing := false, shieldTimer := 0, flashTimer := 0 } 30).2 =
        true) ∧
    ((onTrialKill
      { trialActive := true, trialType := AugKind.sniper, trialKills := 3,
        trialTarget := 10, trialFailed := false,
        ultUpgrades := augFlagsInit, bossArtifacts := augFlagsInit
        }).trialKills = 4 ∧
      (onTrialKill
        { trialActive := true, trialType := AugKind.sniper, trialKills := 3,
          trialTarget := 10, trialFailed := false,
          ultUpgrades := augFlagsInit, bossArtifacts := augFlagsInit
          }).trialActive = true ∧
      (onTrialKill
        { trialActive := true, trialType := AugKind.sniper, trialKills := 3,
          trialTarget := 10, trialFailed := false,
          ultUpgrades := augFlagsInit, bossArtifacts := augFlagsInit
          }).ultUpgrades = augFlagsInit) :=
  ⟨(C3_trial_failure_amended
      { posX := 0, posY := 0, radius := 20, hp := 100, maxHp := 100, xp := 0,
        level := 1, xpRequired := 100, invincibleTimer := 0,
        isDashing := false, shieldTimer := 0, flashTimer := 0 }
      { trialActive := true, trialType := AugKind.sniper, trialKills := 3,
        trialTarget := 10, trialFailed := false,
        ultUpgrades := augFlagsInit, bossArtifacts := augFlagsInit }
      30 rfl rfl).1,
   by
    have h := (C3_trial_failure_amended
      { posX := 0, posY := 0, radius := 20, hp := 100, maxHp := 100, xp := 0,
        level := 1, xpRequired := 100, invincibleTimer := 0,
        isDashing := false, shieldTimer := 0, flashTimer := 0 }
      { trialActive := true, trialType := AugKind.sniper, trialKills := 3,
        trialTarget := 10, trialFailed := false,
        ultUpgrades := augFlagsInit, bossArtifacts := augFlagsInit }
      30 rfl rfl).2.2.2.2.2 (by norm_num)
    exact h⟩

/- ── C6 ─ SuicideBomber explosion ─────────────────────────────────────── -/

/-- C6: when a priming SuicideBomber's timer expires it explodes (the
exploded signal is raised by the update), and the explosion handler then
behaves as claimed: the player is touched only when the blast disk overlaps
the player disk — and then, when no immunity applies, loses exactly the
bomber's full damage (clamped at zero) — every other enemy is dealt exactly
half the bomber's damage (Python floor division) through its own
take_damage when the blast overlaps it and is untouched otherwise, the
bomber itself receives no splash (the handler skips it by identity; here
the splash runs over the list of the other enemies only) and ends terminal
with hp forced to 0.  For an enemy with no archetype mitigation the half
damage is exactly the hp delta. -/
theorem C6_bomber_explosion_cycle (b : BomberPrime) (distSq dt : ℚ)
    (bomber : EnemyU) (p : PlayerS) (s : TrialS) (others : List EnemyU)
    (hPrime : b.isPriming = true) (hTimer : b.primeTimer ≤ dt) :
    (bomberPrimeStep b distSq dt).exploded = true ∧
    (bomberExplosionAt bomber p s others).2.2.2 = { bomber with hp := 0 } ∧
    (¬((p.posX - bomber.posX) ^ 2 + (p.posY - bomber.posY) ^ 2 <
        (BOMBER_EXPLOSION_RADIUS + p.radius) ^ 2) →
      (bomberExplosionAt bomber p s others).1 = p ∧
      (bomberExplosionAt bomber p s others).2.1 = s) ∧
    ((p.posX - bomber.posX) ^ 2 + (p.posY - bomber.posY) ^ 2 <
        (BOMBER_EXPLOSION_RADIUS + p.radius) ^ 2 →
      p.invincibleTimer ≤ 0 → p.isDashing = false → p.shieldTimer ≤ 0 →
      (bomberExplosionAt bomber p s others).1.hp =
        max 0 (p.hp - bomber.damage)) ∧
    (bomberExplosionAt bomber p s others).2.2.1 =
      others.map (bomberSplash bomber) ∧
    (∀ o : EnemyU,
      (¬((o.posX - bomber.posX) ^ 2 + (o.posY - bomber.posY) ^ 2 <
          (BOMBER_EXPLOSION_RADIUS + o.radius) ^ 2) →
        bomberSplash bomber o = o) ∧
      ((o.posX - bomber.posX) ^ 2 + (o.posY - bomber.posY) ^ 2 <
          (BOMBER_EXPLOSION_RADIUS + o.radius) ^ 2 →
        bomberSplash bomber o =
          (enemyTakeDamage o ((⌊bomber.damage / 2⌋ : ℤ) : ℚ) none).1) ∧
      ((o.posX - bomber.posX) ^ 2 + (o.posY - bomber.posY) ^ 2 <
          (BOMBER_EXPLOSION_RADIUS + o.radius) ^ 2 → o.kind = EKind.plain →
        (bomberSplash bomber o).hp =
          max 0 (o.hp - ((⌊bomber.damage / 2⌋ : ℤ) : ℚ)))) := by
  refine ⟨?_, rfl, ?_, ?_, rfl, ?_⟩
  · have ht : b.primeTimer - dt ≤ 0 := by linarith
    simp [bomberPrimeStep, hPrime, ht]
  · intro hout
    simp [bomberExplosionAt, hout]
  · intro hin hi hd hs
    have hc : ¬(0 < p.invincibleTimer ∨ p.isDashing = true) := by
      rintro (h | h)
      · linarith
      · rw [hd] at h; cases h
    have hsh : ¬ 0 < p.shieldTimer := by linarith
    simp [bomberExplosionAt, hin, playerHitGated, playerTakeDamage, hc, hsh]
  · intro o
    refine ⟨fun hout => ?_, fun hin => ?_, fun hin hk => ?_⟩
    · simp [bomberSplash, hout]
    · simp [bomberSplash, hin]
    · rw [show bomberSplash bomber o =
          (enemyTakeDamage o ((⌊bomber.damage / 2⌋ : ℤ) : ℚ) none).1 by
            simp [bomberSplash, hin]]
      simp [enemyTakeDamage, hk, enemyApplyBase_hp]

/-- C6 witness: a bomber (damage 60) explodes at the origin with the player
25 away (inside the blast, vulnerable at 100 hp: drops to 40 = 100 - 60); a
plain enemy 100 away is dealt 60 // 2 = 30, dropping 50 to 20; one 200 away
is untouched. -/
theorem C6_bomber_explosion_cycle_witness :
    (bomberPrimeStep { isPriming := true, primeTimer := 1/10, exploded := false }
      (25 ^ 2) (1/10)).exploded = true ∧
    (bomberExplosionAt
      { posX := 0, posY := 0, radius := 14, hp := 30, damage := 60, xpValue := 35,
        flashTimer := 0, slowTimer := 0, slowFactor := 1, isBoss := false,
        bossAug := AugKind.tank, kind := EKind.plain }
      { posX := 25, posY := 0, radius := 20, hp := 100, maxHp := 100, xp := 0,
        level := 1, xpRequired := 100, invincibleTimer := 0, isDashing := false,
        shieldTimer := 0, flashTimer := 0 }
      { trialActive := false, trialType := AugKind.sniper, trialKills := 0,
        trialTarget := 10, trialFailed := false,
        ultUpgrades := augFlagsInit, bossArtifacts := augFlagsInit }
      []).1.hp = max 0 (100 - 60) ∧
    (bomberSplash
      { posX := 0, posY := 0, radius := 14, hp := 30, damage := 60, xpValue := 35,
        flashTimer := 0, slowTimer := 0, slowFactor := 1, isBoss := false,
        bossAug := AugKind.tank, kind := EKind.plain }
      { posX := 100, posY := 0, radius := 16, hp := 50, damage := 8, xpValue := 20,
        flashTimer := 0, slowTimer := 0, slowFactor := 1, isBoss := false,
        bossAug := AugKind.tank, kind := EKind.plain }).hp =
      max 0 (50 - ((⌊(60 : ℚ) / 2⌋ : ℤ) : ℚ)) ∧
    bomberSplash
      { posX := 0, posY := 0, radius := 14, hp := 30, damage := 60, xpValue := 35,
        flashTimer := 0, slowTimer := 0, slowFactor := 1, isBoss := false,
        bossAug := AugKind.tank, kind := EKind.plain }
      { posX := 200, posY := 0, radius := 16, hp := 50, damage := 8, xpValue := 20,
        flashTimer := 0, slowTimer := 0, slowFactor := 1, isBoss := false,
        bossAug := AugKind.tank, kind := EKind.plain } =
      { posX := 200, posY := 0, radius := 16, hp := 50, damage := 8, xpValue := 20,
        flashTimer := 0, slowTimer := 0, slowFactor := 1, isBoss := false,
        bossAug := AugKind.tank, kind := EKind.plain } := by
  have h := C6_bomber_explosion_cycle
    { isPriming := true, primeTimer := 1/10, exploded := false } (25 ^ 2) (1/10)
    { posX := 0, posY := 0, radius := 14, hp := 30, damage := 60, xpValue := 35,
      flashTimer := 0, slowTimer := 0, slowFactor := 1, isBoss := false,
      bossAug := AugKind.tank, kind := EKind.plain }
    { posX := 25, posY := 0, radius := 20, hp := 100, maxHp := 100, xp := 0,
      level := 1, xpRequired := 100, invincibleTimer := 0, isDashing := false,
      shieldTimer := 0, flashTimer := 0 }
    { trialActive := false, trialType := AugKind.sniper, trialKills := 0,
      trialTarget := 10, trialFailed := false,
      ultUpgrades := augFlagsInit, bossArtifacts := augFlagsInit }
    [] rfl (by norm_num)
  refine ⟨h.1, ?_, ?_, ?_⟩
  · exact h.2.2.2.1 (by norm_num [BOMBER_EXPLOSION_RADIUS])
      (by norm_num) rfl (by norm_num)
  · exact ((h.2.2.2.2.2
      { posX := 100, posY := 0, radius := 16, hp := 50, damage := 8, xpValue := 20,
        flashTimer := 0, slowTimer := 0, slowFactor := 1, isBoss := false,
        bossAug := AugKind.tank, kind := EKind.plain }).2.2
      (by norm_num [BOMBER_EXPLOSION_RADIUS]) rfl)
  · exact ((h.2.2.2.2.2
      { posX := 200, posY := 0, radius := 16, hp := 50, damage := 8, xpValue := 20,
        flashTimer := 0, slowTimer := 0, slowFactor := 1, isBoss := false,
        bossAug := AugKind.tank, kind := EKind.plain }).1
      (by norm_num [BOMBER_EXPLOSION_RADIUS]))

/- ── C7 ─ boss-wave cadence ───────────────────────────────────────────── -/

/-- C7: among the wave numbers 1..N produced by the Wave Director (the
wave-start step numbers waves consecutively and flags a wave as a boss wave
through _is_boss_wave), exactly floor(N / interval) are boss waves — exactly
those whose number is a positive multiple of the interval — and for an
interval greater than 1 two consecutive wave numbers are never both boss
waves. -/
theorem C7_boss_cadence (N interval : ℕ) (hpos : 0 < interval) :
    ((Finset.Ioc 0 N).filter (fun n => isBossWave interval n = true)).card =
      N / interval ∧
    (1 < interval →
      ∀ n : ℕ, ¬(isBossWave interval n = true ∧
        isBossWave interval (n + 1) = true)) := by
  have hbw : ∀ n : ℕ, isBossWave interval n = true ↔
      (0 < n ∧ n % interval = 0) := by
    intro n
    simp [isBossWave]
  constructor
  · have hcongr : (Finset.Ioc 0 N).filter (fun n => isBossWave interval n = true) =
        (Finset.Ioc 0 N).filter (fun n => interval ∣ n) := by
      apply Finset.filter_congr
      intro n hn
      rw [Finset.mem_Ioc] at hn
      rw [hbw n]
      simp only [hn.1, true_and]
      exact Nat.dvd_iff_mod_eq_zero.symm
    rw [hcongr]
    exact Nat.Ioc_filter_dvd_card_eq_div N interval
  · intro hgt n hcontra
    obtain ⟨ha, hb⟩ := hcontra
    have h1 : interval ∣ n := by
      obtain ⟨_, hm⟩ := (hbw n).mp ha
      exact Nat.dvd_iff_mod_eq_zero.mpr hm
    have h2 : interval ∣ n + 1 := by
      obtain ⟨_, hm⟩ := (hbw (n + 1)).mp hb
      exact Nat.dvd_iff_mod_eq_zero.mpr hm
    have h3 : interval ∣ 1 := by
      have := Nat.dvd_sub' h2 h1
      simpa using this
    have := Nat.le_of_dvd one_pos h3
    omega

/-- C7 witness: with the configured interval 5 and N = 12 there are exactly
12 / 5 = 2 boss waves among waves 1..12, and waves 5 and 6 are not both boss
waves. -/
theorem C7_boss_cadence_witness :
    ((Finset.Ioc 0 12).filter
      (fun n => isBossWave BOSS_WAVE_INTERVAL n = true)).card = 12 / 5 ∧
    ¬(isBossWave BOSS_WAVE_INTERVAL 5 = true ∧
      isBossWave BOSS_WAVE_INTERVAL 6 = true) :=
  ⟨(C7_boss_cadence 12 BOSS_WAVE_INTERVAL (by norm_num [BOSS_WAVE_INTERVAL])).1,
   (C7_boss_cadence 12 BOSS_WAVE_INTERVAL
      (by norm_num [BOSS_WAVE_INTERVAL])).2
      (by norm_num [BOSS_WAVE_INTERVAL]) 5⟩

/- ── C8 ─ hp and timer clamping ───────────────────────────────────────── -/

/-- C8 counterexample: not every timer is clamped to zero after being
decremented — Tank.update (enemies.py 394) decrements charge_timer with no
clamp, and when the player is out of charge range (distance 500, squared
250000, against the guard's 400) the timer is simply left negative; after a
second such update it is even more negative, so it sits below zero for as
long as the player stays far, refuting the universal clamp claim. -/
theorem C8_tank_charge_timer_counterexample :
    (tankUpdateTimers
      { isShielded := false, shieldTimer := 0, shieldCooldownTimer := 5,
        isCharging := false, chargeTimer := 1/20, chargeDuration := 1 }
      (500 ^ 2) (1/10) 2).chargeTimer = -(1/20) ∧
    (tankUpdateTimers
      (tankUpdateTimers
        { isShielded := false, shieldTimer := 0, shieldCooldownTimer := 5,
          isCharging := false, chargeTimer := 1/20, chargeDuration := 1 }
        (500 ^ 2) (1/10) 2)
      (500 ^ 2) (1/10) 2).chargeTimer = -(3/20) := by
  norm_num [tankUpdateTimers]

/-- C8 (amended): no damage path ever leaves hp negative — every archetype's
take_damage and the player's take_damage clamp hp at zero — and the
player's countdown timers (player.py 187-195) as well as the enemy
flash/slow timers are clamped at zero after each decrement; but ability
timers such as Tank.charge_timer and the tank shield timers are decremented
without a clamp and may remain negative across frames until their expiry
condition fires (see the counterexample). -/
theorem C8_hp_and_timer_clamps_amended (e : EnemyU) (amount dt : ℚ)
    (fa : Option ℚ) (p : PlayerS) (t : PlayerTimers)
    (he : 0 ≤ e.hp) (hp0 : 0 ≤ p.hp) (hslow : 0 ≤ e.slowTimer) :
    0 ≤ (enemyTakeDamage e amount fa).1.hp ∧
    0 ≤ (playerTakeDamage p amount).1.hp ∧
    (0 ≤ (playerTickTimers t dt).fireTimer ∧
     0 ≤ (playerTickTimers t dt).invincibleTimer ∧
     0 ≤ (playerTickTimers t dt).flashTimer ∧
     0 ≤ (playerTickTimers t dt).dashCooldownTimer ∧
     0 ≤ (playerTickTimers t dt).shieldTimer ∧
     0 ≤ (playerTickTimers t dt).doubleDamageTimer ∧
     0 ≤ (playerTickTimers t dt).speedBoostTimer ∧
     0 ≤ (playerTickTimers t dt).reflexTimer ∧
     0 ≤ (playerTickTimers t dt).railgunTimer) ∧
    (0 ≤ (enemyTickTimers e dt).flashTimer ∧
     0 ≤ (enemyTickTimers e dt).slowTimer) := by
  refine ⟨?_, ?_, ?_, ?_⟩
  · cases hk : e.kind with
    | plain =>
        rw [show enemyTakeDamage e amount fa = enemyApplyBase e amount by
          simp [enemyTakeDamage, hk], enemyApplyBase_hp]
        exact le_max_left 0 _
    | tank sh =>
        rw [show enemyTakeDamage e amount fa =
            enemyApplyBase e
              (if sh then ((pyInt (amount * (1 - TANK_SHIELD_REDUCTION)) : ℤ) : ℚ)
               else amount) by simp [enemyTakeDamage, hk], enemyApplyBase_hp]
        exact le_max_left 0 _
    | guard f =>
        cases fa with
        | none =>
            rw [show enemyTakeDamage e amount none = enemyApplyBase e amount by
              simp [enemyTakeDamage, hk], enemyApplyBase_hp]
            exact le_max_left 0 _
        | some a =>
            by_cases hsh : isBulletShielded f a = true
            · rw [show enemyTakeDamage e amount (some a) = (e, false) by
                simp [enemyTakeDamage, hk, hsh]]
              exact he
            · rw [show enemyTakeDamage e amount (some a) =
                  enemyApplyBase e amount by
                    simp [enemyTakeDamage, hk,
                      Bool.not_eq_true _ ▸ hsh], enemyApplyBase_hp]
              exact le_max_left 0 _
  · unfold playerTakeDamage
    split_ifs <;> simp [hp0, le_max_left]
  · unfold playerTickTimers
    refine ⟨le_max_left 0 _, le_max_left 0 _, le_max_left 0 _, le_max_left 0 _,
      le_max_left 0 _, le_max_left 0 _, le_max_left 0 _, le_max_left 0 _,
      le_max_left 0 _⟩
  · unfold enemyTickTimers
    dsimp only
    split_ifs with h1 h2
    · exact ⟨le_max_left 0 _, le_refl 0⟩
    · exact ⟨le_max_left 0 _, by dsimp only at h2 ⊢; linarith⟩
    · exact ⟨le_max_left 0 _, hslow⟩

/-- C8 witness: the amended clamp guarantees applied to a plain enemy at
hp 50 and a player at 5 hp, both hit for 999, with timers mid countdown. -/
theorem C8_hp_and_timer_clamps_amended_witness :
    0 ≤ (enemyTakeDamage
      { posX := 0, posY := 0, radius := 16, hp := 50, damage := 8, xpValue := 20,
        flashTimer := 0, slowTimer := 1/2, slowFactor := 2/5, isBoss := false,
        bossAug := AugKind.tank, kind := EKind.plain } 999 none).1.hp ∧
    0 ≤ (playerTakeDamage
      { posX := 0, posY := 0, radius := 20, hp := 5, maxHp := 100, xp := 0,
        level := 1, xpRequired := 100, invincibleTimer := 0, isDashing := false,
        shieldTimer := 0, flashTimer := 0 } 999).1.hp ∧
    0 ≤ (playerTickTimers
      { fireTimer := 1/10, invincibleTimer := 1/2, flashTimer := 1/10,
        dashCooldownTimer := 1, shieldTimer := 2, doubleDamageTimer := 0,
        speedBoostTimer := 0, reflexTimer := 0, railgunTimer := 0 }
      (3/4)).shieldTimer := by
  have h := C8_hp_and_timer_clamps_amended
    { posX := 0, posY := 0, radius := 16, hp := 50, damage := 8, xpValue := 20,
      flashTimer := 0, slowTimer := 1/2, slowFactor := 2/5, isBoss := false,
      bossAug := AugKind.tank, kind := EKind.plain } 999 (3/4) none
    { posX := 0, posY := 0, radius := 20, hp := 5, maxHp := 100, xp := 0,
      level := 1, xpRequired := 100, invincibleTimer := 0, isDashing := false,
      shieldTimer := 0, flashTimer := 0 }
    { fireTimer := 1/10, invincibleTimer := 1/2, flashTimer := 1/10,
      dashCooldownTimer := 1, shieldTimer := 2, doubleDamageTimer := 0,
      speedBoostTimer := 0, reflexTimer := 0, railgunTimer := 0 }
    (by norm_num) (by norm_num) (by norm_num)
  exact ⟨h.1, h.2.1, h.2.2.1.2.2.2.2.1⟩

/- ── C9 ─ non-bullet enemy deaths and the scoring state ───────────────── -/

/-- C9: the four non-projectile damage paths never touch the scoring state.
The Neon Pulse handler, the ghost-trail tick and the dash shockwave each
leave score, combo counter, player xp, ultimate charge and the active
trial's kill count exactly as they were (whatever enemies they kill); the
toxic-pool tick leaves score, combo counter, player xp, ultimate charge and
the entire enemy list unchanged — pools damage only the player, so a pool
never causes an enemy death — and can touch the trial kill count only by
resetting it to zero through the player-damage trial-failure rule, never by
crediting a kill.  The player-bullet kill branch is where those values
change: it advances the combo by one, adds the combo-scaled points to the
score, credits ultimate charge, and advances the active trial's kill
count. -/
theorem C9_nonbullet_kills_no_scoring
    (normDir : ℚ → ℚ → ℚ × ℚ) (cosSin : ℚ → ℚ × ℚ) (atan2Q : ℚ → ℚ → ℚ)
    (g : GameCore) (dt : ℚ) (swLevel : ℕ) (px py : ℚ) (e : EnemyU) :
    ((processNeonPulse normDir cosSin atan2Q g).score = g.score ∧
     (processNeonPulse normDir cosSin atan2Q g).comboCounter = g.comboCounter ∧
     (processNeonPulse normDir cosSin atan2Q g).player.xp = g.player.xp ∧
     (processNeonPulse normDir cosSin atan2Q g).ultCharge = g.ultCharge ∧
     (processNeonPulse normDir cosSin atan2Q g).trial.trialKills =
       g.trial.trialKills) ∧
    ((ghostTrailStep g dt).score = g.score ∧
     (ghostTrailStep g dt).comboCounter = g.comboCounter ∧
     (ghostTrailStep g dt).player.xp = g.player.xp ∧
     (ghostTrailStep g dt).ultCharge = g.ultCharge ∧
     (ghostTrailStep g dt).trial.trialKills = g.trial.trialKills) ∧
    ((dashShockwave normDir g swLevel px py).score = g.score ∧
     (dashShockwave normDir g swLevel px py).comboCounter = g.comboCounter ∧
     (dashShockwave normDir g swLevel px py).player.xp = g.player.xp ∧
     (dashShockwave normDir g swLevel px py).ultCharge = g.ultCharge ∧
     (dashShockwave normDir g swLevel px py).trial.trialKills =
       g.trial.trialKills) ∧
    ((toxicPoolStep g dt).score = g.score ∧
     (toxicPoolStep g dt).comboCounter = g.comboCounter ∧
     (toxicPoolStep g dt).player.xp = g.player.xp ∧
     (toxicPoolStep g dt).ultCharge = g.ultCharge ∧
     (toxicPoolStep g dt).enemies = g.enemies ∧
     ((toxicPoolStep g dt).trial.trialKills = g.trial.trialKills ∨
      (toxicPoolStep g dt).trial.trialKills = 0)) ∧
    ((onBulletKill g e).comboCounter = g.comboCounter + 1 ∧
     (onBulletKill g e).score = g.score +
       pyInt (e.xpValue * (1 + (((g.comboCounter + 1 : ℤ) : ℚ) - 1) * (25/100)) *
         SCORE_MULTIPLIER) ∧
     (onBulletKill g e).ultCharge =
       min ULT_COOLDOWN (g.ultCharge + ULT_CHARGE_PER_KILL) ∧
     (e.isBoss = false → g.trial.trialActive = true →
       g.trial.trialFailed = false →
       g.trial.trialKills + 1 < g.trial.trialTarget →
       (onBulletKill g e).trial.trialKills = g.trial.trialKills + 1)) := by
  refine ⟨⟨rfl, rfl, rfl, rfl, rfl⟩, ⟨rfl, rfl, rfl, rfl, rfl⟩, ?_, ?_, ?_⟩
  · unfold dashShockwave
    split_ifs <;> exact ⟨rfl, rfl, rfl, rfl, rfl⟩
  · obtain ⟨hx, hk⟩ := toxicPoolsGo_frame dt g.toxicPools g.player g.trial
    exact ⟨rfl, rfl, hx, rfl, rfl, hk⟩
  · refine ⟨rfl, rfl, rfl, fun hb hA hF hshort => ?_⟩
    have hns : ¬ g.trial.trialTarget ≤ g.trial.trialKills + 1 := by linarith
    simp [onBulletKill, hb, onTrialKill, hA, hF, hns]

/-- C9 witness: on a concrete frame state (score 100, combo 2, an active
sniper trial at 3 of 10 kills), the Neon Pulse leaves the score at 100 and
the kill count at 3, while one bullet kill of a plain 20-xp enemy takes the
combo to 3, the score to 100 + 30 and the kill count to 4. -/
theorem C9_nonbullet_kills_no_scoring_witness :
    (processNeonPulse (fun _ _ => (0, 0)) (fun _ => (1, 0)) (fun _ _ => 0)
      sampleCore).score = 100 ∧
    (processNeonPulse (fun _ _ => (0, 0)) (fun _ => (1, 0)) (fun _ _ => 0)
      sampleCore).trial.trialKills = 3 ∧
    (onBulletKill sampleCore sampleVictim).comboCounter = 3 ∧
    (onBulletKill sampleCore sampleVictim).trial.trialKills = 4 := by
  have h := C9_nonbullet_kills_no_scoring
    (fun _ _ => (0, 0)) (fun _ => (1, 0)) (fun _ _ => 0)
    sampleCore 0 0 0 0 sampleVictim
  exact ⟨h.1.1, h.1.2.2.2.2, h.2.2.2.2.1,
    h.2.2.2.2.2.2.2 rfl rfl rfl (by norm_num [sampleCore])⟩

/- ── C10 ─ one-shot boss artifacts ────────────────────────────────────── -/

/-- C10: the boss-artifact award is one-shot per augment type.  Once the
artifact flag for a type is set, awarding again is the identity — it grants
nothing and never restarts the trial; the very first award of a type whose
augment is still locked sets the flag and starts the trial (active, zero
kills, unfailed); neither trial damage, trial kills, nor a trial start ever
clears an artifact flag; and in particular, after the first award and a
subsequent trial failure, a second boss kill of the same archetype changes
nothing. -/
theorem C10_boss_artifact_one_shot (s s0 : TrialS) (k : AugKind)
    (hset : s.bossArtifacts.get k = true)
    (hflag0 : s0.bossArtifacts.get k = false)
    (hult0 : s0.ultUpgrades.get k = false) :
    awardBossArtifact s k = s ∧
    awardBossArtifact s0 k =
      { s0 with bossArtifacts := s0.bossArtifacts.set k true,
                trialActive := true, trialType := k,
                trialKills := 0, trialFailed := false } ∧
    ((onTrialDamage s).bossArtifacts = s.bossArtifacts ∧
     (onTrialKill s).bossArtifacts = s.bossArtifacts ∧
     (startTrial s k).bossArtifacts = s.bossArtifacts) ∧
    awardBossArtifact (onTrialDamage (awardBossArtifact s0 k)) k =
      onTrialDamage (awardBossArtifact s0 k) := by
  have hpresD : ∀ u : TrialS, (onTrialDamage u).bossArtifacts = u.bossArtifacts := by
    intro u
    unfold onTrialDamage
    split_ifs <;> rfl
  have hpresDu : ∀ u : TrialS, (onTrialDamage u).ultUpgrades = u.ultUpgrades := by
    intro u
    unfold onTrialDamage
    split_ifs <;> rfl
  have haward_id : ∀ u : TrialS, u.bossArtifacts.get k = true →
      awardBossArtifact u k = u := by
    intro u hu
    unfold awardBossArtifact
    split_ifs with h1 h2
    · rfl
    · rw [hu] at h2
      simp at h2
    · rfl
  have hfirst : awardBossArtifact s0 k =
      { s0 with bossArtifacts := s0.bossArtifacts.set k true,
                trialActive := true, trialType := k,
                trialKills := 0, trialFailed := false } := by
    unfold awardBossArtifact
    rw [hult0, hflag0]
    rfl
  refine ⟨haward_id s hset, hfirst, ⟨hpresD s, ?_, rfl⟩, ?_⟩
  · unfold onTrialKill
    dsimp only
    split_ifs <;> rfl
  · apply haward_id
    rw [hpresD]
    rw [hfirst]
    exact AugFlags.get_set_self s0.bossArtifacts k true

/-- C10 witness: starting from a fresh session (no artifacts, no augments),
the first tank-boss kill starts the tank trial with the flag set; after the
trial fails, a second tank-boss kill changes nothing. -/
theorem C10_boss_artifact_one_shot_witness :
    awardBossArtifact
      { trialActive := false, trialType := AugKind.sniper, trialKills := 0,
        trialTarget := 10, trialFailed := false,
        ultUpgrades := augFlagsInit, bossArtifacts := augFlagsInit }
      AugKind.tank =
      { trialActive := true, trialType := AugKind.tank, trialKills := 0,
        trialTarget := 10, trialFailed := false,
        ultUpgrades := augFlagsInit,
        bossArtifacts := augFlagsInit.set AugKind.tank true } ∧
    awardBossArtifact
      (onTrialDamage
        (awardBossArtifact
          { trialActive := false, trialType := AugKind.sniper, trialKills := 0,
            trialTarget := 10, trialFailed := false,
            ultUpgrades := augFlagsInit, bossArtifacts := augFlagsInit }
          AugKind.tank))
      AugKind.tank =
      onTrialDamage
        (awardBossArtifact
          { trialActive := false, trialType := AugKind.sniper, trialKills := 0,
            trialTarget := 10, trialFailed := false,
            ultUpgrades := augFlagsInit, bossArtifacts := augFlagsInit }
          AugKind.tank) := by
  have h := C10_boss_artifact_one_shot
    { trialActive := true, trialType := AugKind.tank, trialKills := 0,
      trialTarget := 10, trialFailed := false,
      ultUpgrades := augFlagsInit,
      bossArtifacts := augFlagsInit.set AugKind.tank true }
    { trialActive := false, trialType := AugKind.sniper, trialKills := 0,
      trialTarget := 10, trialFailed := false,
      ultUpgrades := augFlagsInit, bossArtifacts := augFlagsInit }
    AugKind.tank rfl rfl rfl
  exact ⟨h.2.1, h.2.2.2⟩

end NeonArena
